import Mathlib

/-!
Verification of the filtering-and-aggregation core of `dashboard_app.py`.

The program loads a fixed 20-row sales table (columns Date, Region,
Category, Product, Sales, Units), filters it by region membership,
category membership and an inclusive date range, and computes KPI sums
and group-by-sum aggregations over the filtered view.

Shallow embedding choices:
* A row is a `Record`; dates are encoded as `yyyymmdd` naturals (all
  dates share year and month form, so numeric order coincides with
  calendar order on the encoded values).
* `Sales` values are integers in the literal data (pandas reads them as
  int64), embedded as `Int`; `Units` as `Nat`.
* The Streamlit `date_range` value is a list of dates: the widget's
  tuple, which may hold zero, one or two dates.  The source does
  `if date_range: start_date, end_date = date_range` — the truthiness
  check passes any non-empty tuple to the 2-tuple unpacking, which
  raises `ValueError` unless the tuple has exactly two elements.
  `applyFilter` returns `none` exactly where the Python raises.
* `avg_sales_per_unit = Sales.sum() / Units.sum()` is numpy float true
  division with no zero check: with a zero denominator it raises
  nothing and yields a non-finite float (inf / nan).  `PyFloat` keeps
  the exact rational in the non-zero case and marks the zero-divisor
  outcome as `nonfinite`; every division the claims evaluate is exact
  in binary floating point, so no rounding is modelled.
* The `if filtered_df.empty: st.warning(...) else: ...KPIs...` guard at
  lines 100-123 is `renderKPIs`: `none` models the warning branch in
  which no KPI is computed or displayed.
-/

namespace Dashboard

/-- One row of the dataset (source lines 19-39): Date, Region, Category,
Product, Sales, Units. -/
structure Record where
  date : Nat
  region : String
  category : String
  product : String
  sales : Int
  units : Nat
deriving DecidableEq, Repr

/-- The fixed literal dataset parsed by `load_data` (source lines 18-44),
row for row in file order. -/
def dataset : List Record :=
  [ ⟨20230101, "East", "Electronics", "Laptop", 1200, 1⟩
  , ⟨20230101, "West", "Clothing", "T-Shirt", 25, 2⟩
  , ⟨20230102, "East", "Food", "Milk", 5, 1⟩
  , ⟨20230102, "Central", "Electronics", "Mouse", 30, 1⟩
  , ⟨20230103, "West", "Electronics", "Keyboard", 75, 1⟩
  , ⟨20230103, "East", "Clothing", "Jeans", 60, 1⟩
  , ⟨20230104, "Central", "Food", "Bread", 3, 1⟩
  , ⟨20230104, "East", "Electronics", "Monitor", 300, 1⟩
  , ⟨20230105, "West", "Food", "Cheese", 15, 1⟩
  , ⟨20230105, "Central", "Clothing", "Jacket", 150, 1⟩
  , ⟨20230106, "East", "Electronics", "Laptop", 1100, 1⟩
  , ⟨20230106, "West", "Clothing", "Socks", 10, 2⟩
  , ⟨20230107, "Central", "Food", "Eggs", 7, 1⟩
  , ⟨20230107, "East", "Electronics", "Webcam", 40, 1⟩
  , ⟨20230108, "West", "Electronics", "Printer", 200, 1⟩
  , ⟨20230108, "Central", "Clothing", "Dress", 80, 1⟩
  , ⟨20230109, "East", "Food", "Yogurt", 8, 1⟩
  , ⟨20230109, "West", "Electronics", "Headphones", 90, 1⟩
  , ⟨20230110, "Central", "Electronics", "Speaker", 60, 1⟩
  , ⟨20230110, "East", "Clothing", "Hat", 20, 1⟩ ]

/-- `df['Region'].unique()` in first-appearance order (source line 65). -/
def allRegions : List String := ["East", "West", "Central"]

/-- `df['Category'].unique()` in first-appearance order (source line 72). -/
def allCategories : List String := ["Electronics", "Clothing", "Food"]

/-- The row predicate of the boolean mask at source lines 90-93:
`Region.isin(selected_regions) & Category.isin(selected_categories)
 & (Date >= start_date) & (Date <= end_date)`. -/
def passes (regions categories : List String) (s e : Nat) (r : Record) : Bool :=
  decide (r.region ∈ regions) && decide (r.category ∈ categories) &&
    decide (s ≤ r.date) && decide (r.date ≤ e)

/-- The mask-selection `df[...]` of source lines 89-94, given both date
bounds: keeps the rows passing all four predicates, in dataframe order. -/
def applyFilter2 (df : List Record) (regions categories : List String)
    (s e : Nat) : List Record :=
  df.filter (passes regions categories s e)

/-- Source lines 87-96 as a whole, with `dateRange` the tuple returned by
the date widget.  An empty tuple is falsy, so the else-branch passes the
whole dataframe through; a two-element tuple unpacks and filters; any
other length makes `start_date, end_date = date_range` raise
`ValueError`, modelled as `none`. -/
def applyFilter (df : List Record) (regions categories : List String)
    (dateRange : List Nat) : Option (List Record) :=
  match dateRange with
  | [] => some df
  | [s, e] => some (applyFilter2 df regions categories s e)
  | _ => none

/-- `filtered_df['Sales'].sum()` (source line 114). -/
def totalSales (v : List Record) : Int :=
  (v.map Record.sales).sum

/-- `filtered_df['Units'].sum()` (source line 122). -/
def totalUnits (v : List Record) : Nat :=
  (v.map Record.units).sum

/-- Result of numpy float true division as the source performs it: the
exact quotient when the divisor is non-zero, and the raw non-finite
float (inf or nan, no exception and no defined sentinel) when the
divisor is zero. -/
inductive PyFloat where
  | finite (q : ℚ)
  | nonfinite
deriving DecidableEq, Repr

/-- `a / b` at source line 118: numpy true division of the two sums,
performed with no zero check. -/
def pyDiv (a : Int) (b : Nat) : PyFloat :=
  if b = 0 then PyFloat.nonfinite else PyFloat.finite ((a : ℚ) / (b : ℚ))

/-- The three KPI values of source lines 113-123. -/
structure KPISet where
  totalSales : Int
  totalUnits : Nat
  avgSalesPerUnit : PyFloat
deriving DecidableEq, Repr

/-- The KPI computation of source lines 113-123: two sums and their
unguarded quotient. -/
def computeKPIs (v : List Record) : KPISet :=
  { totalSales := totalSales v
    totalUnits := totalUnits v
    avgSalesPerUnit := pyDiv (totalSales v) (totalUnits v) }

/-- The guard of source lines 100-123: an empty filtered frame shows a
warning and computes no KPIs (`none`); otherwise the KPIs are computed
and displayed. -/
def renderKPIs (v : List Record) : Option KPISet :=
  if v.isEmpty then none else some (computeKPIs v)

/-- `filtered_df.groupby(key)['Sales'].sum()` (source lines 134, 147,
159, 183): a mapping from each key value present in the view to the sum
of `Sales` over the rows carrying it.  (pandas iterates keys in sorted
order; the order of entries is not semantically significant and no claim
depends on it, so the mapping is listed over the distinct keys of the
view.) -/
def groupSum (v : List Record) (key : Record → String) : List (String × Int) :=
  (v.map key).dedup.map fun k => (k, totalSales (v.filter fun r => decide (key r = k)))

/-- Sum of all values of an aggregation result. -/
def sumValues (g : List (String × Int)) : Int :=
  (g.map Prod.snd).sum

/-- The program keeps `df` and binds the mask selection to the new name
`filtered_df` (source lines 89-96): the pair (dataset after filtering,
filtered view). -/
def applyFilterState (df : List Record) (regions categories : List String)
    (dateRange : List Nat) : List Record × Option (List Record) :=
  (df, applyFilter df regions categories dateRange)

end Dashboard

namespace Dashboard

lemma totalSales_filter_partition (p : Record → Bool) (v : List Record) :
    totalSales (v.filter p) + totalSales (v.filter fun r => !p r) = totalSales v := by
  induction v with
  | nil => rfl
  | cons r t ih =>
    cases h : p r with
    | true =>
      rw [List.filter_cons_of_pos (by simp [h]), List.filter_cons_of_neg (by simp [h])]
      simp only [totalSales, List.map_cons, List.sum_cons] at *
      omega
    | false =>
      rw [List.filter_cons_of_neg (by simp [h]), List.filter_cons_of_pos (by simp [h])]
      simp only [totalSales, List.map_cons, List.sum_cons] at *
      omega

lemma sum_fiber_totalSales (key : Record → String) :
    ∀ (ks : List String) (v : List Record), ks.Nodup → (∀ r ∈ v, key r ∈ ks) →
      ((ks.map fun k => totalSales (v.filter fun r => decide (key r = k))).sum) = totalSales v := by
  intro ks
  induction ks with
  | nil =>
    intro v _ hcov
    have hv : v = [] := List.eq_nil_iff_forall_not_mem.mpr fun r hr =>
      absurd (hcov r hr) (List.not_mem_nil _)
    subst hv; rfl
  | cons k ks ih =>
    intro v hnd hcov
    have hknotin : k ∉ ks := (List.nodup_cons.mp hnd).1
    have hndks : ks.Nodup := (List.nodup_cons.mp hnd).2
    have hmapeq : (ks.map fun k2 => totalSales (v.filter fun r => decide (key r = k2)))
        = ks.map fun k2 =>
            totalSales ((v.filter fun r => !decide (key r = k)).filter
              fun r => decide (key r = k2)) := by
      refine List.map_congr_left fun k2 hk2 => ?_
      have hne : k2 ≠ k := fun h => hknotin (h ▸ hk2)
      rw [List.filter_filter]
      congr 1
      refine List.filter_congr fun r _ => ?_
      by_cases h : key r = k2
      · have hrk : ¬ key r = k := by rw [h]; exact hne
        simp [h, hrk, hne]
      · simp [h]
    have hcov2 : ∀ r ∈ (v.filter fun r => !decide (key r = k)), key r ∈ ks := by
      intro r hr
      rw [List.mem_filter] at hr
      have hk : key r ∈ k :: ks := hcov r hr.1
      have hnk : ¬ key r = k := by simpa using hr.2
      rcases List.mem_cons.mp hk with h | h
      · exact absurd h hnk
      · exact h
    have hsum2 := ih (v.filter fun r => !decide (key r = k)) hndks hcov2
    have hpart := totalSales_filter_partition (fun r => decide (key r = k)) v
    simp only [List.map_cons, List.sum_cons, hmapeq, hsum2]
    omega

lemma sumValues_groupSum (v : List Record) (key : Record → String) :
    sumValues (groupSum v key) = totalSales v := by
  have h := sum_fiber_totalSales key (v.map key).dedup v (List.nodup_dedup _)
    (fun r hr => List.mem_dedup.mpr (List.mem_map_of_mem _ hr))
  simpa [sumValues, groupSum, List.map_map, Function.comp_def] using h

lemma applyFilter_sublist {df : List Record} {regions categories : List String}
    {dr : List Nat} {v : List Record}
    (h : applyFilter df regions categories dr = some v) : v.Sublist df := by
  rcases dr with _ | ⟨s, _ | ⟨e, _ | _⟩⟩
  · injection h with h2
    subst h2
    exact List.Sublist.refl df
  · exact Option.noConfusion h
  · injection h with h2
    subst h2
    exact List.filter_sublist df
  · exact Option.noConfusion h

lemma dataset_units_pos : ∀ r ∈ dataset, 0 < r.units := by decide

lemma totalUnits_pos_of_sublist {v : List Record} (hsub : v.Sublist dataset)
    (hne : v ≠ []) : 0 < totalUnits v := by
  rcases v with _ | ⟨r, t⟩
  · exact absurd rfl hne
  · have hr : r ∈ dataset := hsub.subset (List.mem_cons_self r t)
    have hpos : 0 < r.units := dataset_units_pos r hr
    simp only [totalUnits, List.map_cons, List.sum_cons]
    omega

end Dashboard

namespace Dashboard

/-- C1: for every FilterSpec with both date bounds, every record of the
filtered view is a record of the dataframe and satisfies the region
membership, category membership and inclusive date-range predicates
(source lines 89-94). -/
theorem C1_filtered_record_satisfies_predicates
    (df : List Record) (regions categories : List String) (s e : Nat)
    (v : List Record) (r : Record)
    (hv : applyFilter df regions categories [s, e] = some v) (hr : r ∈ v) :
    r ∈ df ∧ r.region ∈ regions ∧ r.category ∈ categories ∧
      s ≤ r.date ∧ r.date ≤ e := by
  have hv2 : v = applyFilter2 df regions categories s e := by
    injection hv with h2
    exact h2.symm
  subst hv2
  rw [applyFilter2, List.mem_filter] at hr
  have hp := hr.2
  simp only [passes, Bool.and_eq_true, decide_eq_true_eq] at hp
  exact ⟨hr.1, hp.1.1.1, hp.1.1.2, hp.1.2, hp.2⟩

/-- Witness for C1 at the first dataset row and Scenario A's FilterSpec. -/
theorem C1_filtered_record_satisfies_predicates_witness :
    (⟨20230101, "East", "Electronics", "Laptop", 1200, 1⟩ : Record) ∈ dataset ∧
      "East" ∈ ["East"] ∧ "Electronics" ∈ ["Electronics"] ∧
      20230101 ≤ 20230101 ∧ 20230101 ≤ 20230110 :=
  C1_filtered_record_satisfies_predicates dataset ["East"] ["Electronics"]
    20230101 20230110
    (applyFilter2 dataset ["East"] ["Electronics"] 20230101 20230110)
    ⟨20230101, "East", "Electronics", "Laptop", 1200, 1⟩ rfl (by decide)

/-- C2 counterexample: on the empty view (totalUnits = 0) the KPI stage
computes the raw unguarded quotient, which is the non-finite float of a
zero-divisor division, not an explicit defined sentinel. -/
theorem C2_counterexample_no_sentinel :
    totalUnits ([] : List Record) = 0 ∧
      (computeKPIs []).avgSalesPerUnit = PyFloat.nonfinite :=
  ⟨rfl, rfl⟩

/-- C2 amended: the KPI block never runs on a totalUnits = 0 view: the
emptiness guard (source lines 100-102) skips it for the empty view, and
every non-empty view filtered from the fixed dataset has positive
totalUnits, so every displayed average is the finite exact quotient and
no raw division-by-zero value reaches the output. -/
theorem C2_displayed_avg_always_finite
    (regions categories : List String) (dr : List Nat)
    (v : List Record) (k : KPISet)
    (hv : applyFilter dataset regions categories dr = some v)
    (hk : renderKPIs v = some k) :
    ∃ q : ℚ, k.avgSalesPerUnit = PyFloat.finite q := by
  have hne : v ≠ [] := by
    intro h
    subst h
    exact Option.noConfusion hk
  have hpos : 0 < totalUnits v :=
    totalUnits_pos_of_sublist (applyFilter_sublist hv) hne
  have hk2 : k = computeKPIs v := by
    rcases v with _ | ⟨r, t⟩
    · exact absurd rfl hne
    · injection hk with h2
      exact h2.symm
  subst hk2
  refine ⟨(totalSales v : ℚ) / (totalUnits v : ℚ), ?_⟩
  simp [computeKPIs, pyDiv, Nat.pos_iff_ne_zero.mp hpos]

/-- Witness for C2's amended theorem at Scenario A's FilterSpec. -/
theorem C2_displayed_avg_always_finite_witness :
    ∃ q : ℚ,
      (computeKPIs (applyFilter2 dataset ["East"] ["Electronics"]
        20230101 20230110)).avgSalesPerUnit = PyFloat.finite q :=
  C2_displayed_avg_always_finite ["East"] ["Electronics"] [20230101, 20230110]
    _ _ rfl rfl

/-- C3 failing input: a one-element date tuple (the widget's value while
only a start date is picked) is truthy, so the engine reaches the
two-name unpacking and raises ValueError instead of substituting a bound
or passing all records; the `none` result marks the raise. -/
theorem C3_one_element_range_raises :
    applyFilter dataset allRegions allCategories [20230105] = none := rfl

/-- C4 (Scenario A): regions={East}, categories={Electronics}, dates
[2023-01-01, 2023-01-10] yields exactly the Laptop(1200), Monitor(300),
Laptop(1100), Webcam(40) rows, with totalSales 2640, totalUnits 4 and
average 660 per unit. -/
theorem C4_scenario_a :
    applyFilter dataset ["East"] ["Electronics"] [20230101, 20230110] =
      some [⟨20230101, "East", "Electronics", "Laptop", 1200, 1⟩,
            ⟨20230104, "East", "Electronics", "Monitor", 300, 1⟩,
            ⟨20230106, "East", "Electronics", "Laptop", 1100, 1⟩,
            ⟨20230107, "East", "Electronics", "Webcam", 40, 1⟩] ∧
    computeKPIs (applyFilter2 dataset ["East"] ["Electronics"] 20230101 20230110) =
      { totalSales := 2640, totalUnits := 4,
        avgSalesPerUnit := PyFloat.finite 660 } := by
  constructor
  · rfl
  · have h1 : totalSales
        (applyFilter2 dataset ["East"] ["Electronics"] 20230101 20230110) = 2640 := rfl
    have h2 : totalUnits
        (applyFilter2 dataset ["East"] ["Electronics"] 20230101 20230110) = 4 := rfl
    have h3 : ((2640 : Int) : ℚ) / ((4 : Nat) : ℚ) = 660 := by norm_num
    rw [computeKPIs, h1, h2, pyDiv]
    simp only [Nat.succ_ne_zero, if_false, PyFloat.finite.injEq, KPISet.mk.injEq,
      reduceIte, true_and]
    norm_num

/-- C5: for every view the sum of the category-grouped sales sums equals
totalSales of the view, and (Scenario C) the region-grouped sums on the
full dataset add up to the full dataset's totalSales. -/
theorem C5_group_sums_add_to_totalSales :
    (∀ v : List Record,
        sumValues (groupSum v Record.category) = totalSales v) ∧
      sumValues (groupSum dataset Record.region) = totalSales dataset :=
  ⟨fun v => sumValues_groupSum v Record.category,
    sumValues_groupSum dataset Record.region⟩

/-- C6: an empty selected region set, or an empty selected category set,
makes the membership mask reject every row, so the filtered view is
empty — no implicit select-all; Scenario B's instance included. -/
theorem C6_empty_selection_yields_empty_view :
    (∀ (df : List Record) (categories : List String) (s e : Nat),
        applyFilter2 df [] categories s e = []) ∧
    (∀ (df : List Record) (regions : List String) (s e : Nat),
        applyFilter2 df regions [] s e = []) ∧
    applyFilter dataset [] allCategories [20230101, 20230110] = some [] := by
  refine ⟨?_, ?_, rfl⟩
  · intro df categories s e
    refine List.filter_eq_nil_iff.mpr fun r _ => ?_
    simp [passes]
  · intro df regions s e
    refine List.filter_eq_nil_iff.mpr fun r _ => ?_
    simp [passes]

/-- C7: group-by-sum on the empty view is the empty mapping (no error),
and on any view its key domain is exactly the distinct key values
present in the view — absent keys get no entry. -/
theorem C7_groupSum_empty_and_domain :
    (∀ key : Record → String, groupSum [] key = []) ∧
    (∀ (v : List Record) (key : Record → String) (k : String),
        k ∈ (groupSum v key).map Prod.fst ↔ k ∈ v.map key) := by
  refine ⟨fun _ => rfl, fun v key k => ?_⟩
  simp [groupSum, List.map_map, Function.comp_def, List.mem_dedup]

/-- C8 (Scenario D): all regions, all categories, date range
[2023-01-03, 2023-01-03] returns exactly the two rows dated 2023-01-03:
Keyboard and Jeans. -/
theorem C8_scenario_d :
    applyFilter dataset allRegions allCategories [20230103, 20230103] =
      some [⟨20230103, "West", "Electronics", "Keyboard", 75, 1⟩,
            ⟨20230103, "East", "Clothing", "Jeans", 60, 1⟩] := rfl

/-- C9: every filtered view is a sublist of the dataframe (its records in
the dataframe's relative order), and the pipeline keeps the original
dataframe unchanged alongside the new filtered value. -/
theorem C9_order_preserved_dataset_unchanged
    (df : List Record) (regions categories : List String) (dr : List Nat)
    (v : List Record)
    (h : applyFilter df regions categories dr = some v) :
    v.Sublist df ∧ (applyFilterState df regions categories dr).1 = df :=
  ⟨applyFilter_sublist h, rfl⟩

/-- Witness for C9 at Scenario A's FilterSpec. -/
theorem C9_order_preserved_dataset_unchanged_witness :
    (applyFilter2 dataset ["East"] ["Electronics"] 20230101 20230110).Sublist
        dataset ∧
      (applyFilterState dataset ["East"] ["Electronics"]
        [20230101, 20230110]).1 = dataset :=
  C9_order_preserved_dataset_unchanged dataset ["East"] ["Electronics"]
    [20230101, 20230110] _ rfl

/-- C10: the average's division runs only in the non-empty branch (the
empty view renders a warning and no KPI), and any non-empty view drawn
from the fixed dataset — whose Units entries are all at least 1 — has a
strictly positive totalUnits divisor. -/
theorem C10_division_guarded_divisor_positive
    (regions categories : List String) (dr : List Nat)
    (v : List Record) (k : KPISet)
    (hv : applyFilter dataset regions categories dr = some v)
    (hk : renderKPIs v = some k) :
    renderKPIs ([] : List Record) = none ∧ 0 < totalUnits v := by
  have hne : v ≠ [] := by
    intro h
    subst h
    exact Option.noConfusion hk
  exact ⟨rfl, totalUnits_pos_of_sublist (applyFilter_sublist hv) hne⟩

/-- Witness for C10 at Scenario A's FilterSpec. -/
theorem C10_division_guarded_divisor_positive_witness :
    renderKPIs ([] : List Record) = none ∧
      0 < totalUnits (applyFilter2 dataset ["East"] ["Electronics"]
        20230101 20230110) :=
  C10_division_guarded_divisor_positive ["East"] ["Electronics"]
    [20230101, 20230110] _ _ rfl rfl

end Dashboard
